import Mathlib

/-!
Verification development for the program-management component of this
repository (program.js): the uniform binder `getUniformSetter`, the
`Program` constructor's uniform registration, `setUniform`/`setUniforms`,
and the recursive shader-source loader `recursiveLoad`.

Modelling conventions:
* JS numbers are modelled as `Int`.  `Float32Array` storage is modelled as
  exact (IEEE-754 single rounding is not modelled); `Uint16Array` storage
  applies the JS `ToUint16` conversion, i.e. reduction modulo 2^16, which
  is exact integer semantics.
* Names, paths and shader sources are lists of characters (`Str`).
* Thrown JS exceptions are modelled with `Except JSError`; `JSError`
  distinguishes `new Error(msg)` from engine-raised `TypeError` /
  `ReferenceError` / `RangeError`.
* `recursiveLoad` does not `await` `new XHR(...).sendAsync()`, and its
  nested call passes that un-awaited promise as the next `source` and no
  `duplist`.  The model makes this explicit: the `source` parameter is a
  `JSSource` (a string or an opaque promise object), the nested call
  receives `JSSource.promise` and a fresh empty list, and — since no call
  site ever awaits the fetch — the fetched text never enters the dataflow,
  so the loader environment carries only `getExtension`.
-/

namespace Philo

abbrev Str := List Char

/-! ### WebGL numeric type tags (values from the WebGL specification) -/

def GL_FLOAT : Nat := 5126
def GL_INT : Nat := 5124
def GL_BOOL : Nat := 35670
def GL_FLOAT_VEC2 : Nat := 35664
def GL_FLOAT_VEC3 : Nat := 35665
def GL_FLOAT_VEC4 : Nat := 35666
def GL_INT_VEC2 : Nat := 35667
def GL_INT_VEC3 : Nat := 35668
def GL_INT_VEC4 : Nat := 35669
def GL_BOOL_VEC2 : Nat := 35671
def GL_BOOL_VEC3 : Nat := 35672
def GL_BOOL_VEC4 : Nat := 35673
def GL_FLOAT_MAT2 : Nat := 35674
def GL_FLOAT_MAT3 : Nat := 35675
def GL_FLOAT_MAT4 : Nat := 35676
def GL_SAMPLER_2D : Nat := 35678
def GL_SAMPLER_CUBE : Nat := 35680

/-! ### Errors -/

/-- A thrown JS exception: `jsError` is `throw new Error(msg)`, while
`typeError` / `referenceError` / `rangeError` are raised by the engine
itself. -/
inductive JSError where
  | jsError (msg : Str)
  | typeError (msg : Str)
  | referenceError (msg : Str)
  | rangeError (msg : Str)
deriving DecidableEq, Repr

def msgUnknownGlsl : Str := "Uniform: Unknown GLSL type".toList

def msgBindUndefined : Str := "glFunction is undefined".toList

def msgNotAFunction : Str := "val.toFloat32Array is not a function".toList

def msgMatchNotFun : Str := "source.match is not a function".toList

def msgInvalidLen : Str := "Invalid typed array length".toList

/-! ### The driver upload calls and typed arrays -/

inductive GLFun where
  | uniform1f | uniform1i
  | uniform1fv | uniform1iv
  | uniform2fv | uniform3fv | uniform4fv
  | uniform2iv | uniform3iv | uniform4iv
  | uniformMatrix2fv | uniformMatrix3fv | uniformMatrix4fv
deriving DecidableEq, Repr

inductive TypedArrayKind where
  | f32 | u16
deriving DecidableEq, Repr

/-- JS `ToUint16`: what storing an (integral) number into a `Uint16Array`
does to it — reduction modulo 2^16 into `[0, 65536)`. -/
def toUint16 (v : Int) : Int := v.emod 65536

/-- Storing one element into a typed array of the given kind.
(`Float32Array` is modelled as exact storage.) -/
def TypedArrayKind.store : TypedArrayKind → Int → Int
  | .f32, v => v
  | .u16, v => toUint16 v

/-- The elementwise conversion a typed array of kind `k` applies to a
sequence of numbers. -/
def storeAll (k : TypedArrayKind) (xs : List Int) : List Int :=
  xs.map k.store

/-- `buf.set(src)`: overwrite the first `src.length` slots of `buf` with the
converted elements of `src`, keeping the remaining slots; the buffer keeps
its length. -/
def taSet (k : TypedArrayKind) (buf src : List Int) : List Int :=
  (storeAll k src ++ buf.drop src.length).take buf.length

/-- The local `typedArray` variable of `getUniformSetter`: either unset, a
typed-array constructor, or a freshly allocated scratch instance of the
given length. -/
inductive TASlot where
  | noneTA
  | ctorTA (k : TypedArrayKind)
  | allocTA (k : TypedArrayKind) (n : Nat)
deriving DecidableEq, Repr

def TASlot.kindOf : TASlot → TypedArrayKind
  | .noneTA => .f32
  | .ctorTA k => k
  | .allocTA k _ => k

/-! ### Setter values -/

/-- A JS value passed to a setter, reduced to what the setter code observes:
a raw number, a flat array-like without a `toFloat32Array` method, or an
object exposing `toFloat32Array` (returning `f32`) on top of its
array-like content `xs`. -/
inductive UVal where
  | num (n : Int)
  | flatArr (xs : List Int)
  | convArr (xs : List Int) (f32 : List Int)
deriving DecidableEq, Repr

/-- The value seen as an array-like (a raw number coerces to an array-like
of length 0, as in `TypedArray.prototype.set`). -/
def UVal.arrayLike : UVal → List Int
  | .num _ => []
  | .flatArr xs => xs
  | .convArr xs _ => xs

/-- The contents of `new TA(val)` for a typed-array constructor `TA` of
kind `k`: an array-like argument yields its converted elements (the
constructor ignores any `toFloat32Array` capability); a raw number is the
length-constructor overload, yielding a zero-filled buffer of that length,
or raising a `RangeError` when the length is negative. -/
def taNew (k : TypedArrayKind) : UVal → Except JSError (List Int)
  | .num n => if n < 0 then .error (.rangeError msgInvalidLen)
              else .ok (List.replicate n.toNat 0)
  | .flatArr xs => .ok (storeAll k xs)
  | .convArr xs _ => .ok (storeAll k xs)

/-- The `toFloat32Array` capability of the value, when present. -/
def UVal.toF32 : UVal → Option (List Int)
  | .convArr _ f => some f
  | _ => none

/-! ### The setter produced by `getUniformSetter` -/

/-- Which of the four closures at the end of `getUniformSetter` was
returned. -/
inductive SetterKind where
  | arraySetter (f : GLFun) (k : TypedArrayKind)
  | matrixSetter (f : GLFun)
  | vectorSetter (f : GLFun) (k : TypedArrayKind) (n : Nat)
  | primitiveSetter (f : GLFun)
deriving DecidableEq, Repr

structure Setter where
  loc : Nat
  kind : SetterKind
deriving DecidableEq, Repr

/-- The scratch typed buffer the closure captured at construction:
`new Float32Array(n)` / `new Uint16Array(n)` are zero-initialised.  Only
the non-array vector setter owns one. -/
def SetterKind.initScratch : SetterKind → List Int
  | .vectorSetter _ _ n => List.replicate n 0
  | _ => []

/-- The scratch buffer a setter owns, as (element kind, length); `none`
when the setter owns no scratch buffer. -/
def SetterKind.scratchSpec : SetterKind → Option (TypedArrayKind × Nat)
  | .vectorSetter _ k n => some (k, n)
  | _ => none

/-- Model of `getUniformSetter(gl, glProgram, info, isArray)` after the
location lookup: classification of the uniform's `type`/`size`/`isArray`
into one of the four setter closures, mirroring the source's two switches,
the `glFunction.bind(gl)` step (a `TypeError` when `glFunction` is still
`undefined`, i.e. the type matched no case of the second switch), and the
final branch selection.  The trailing `throw` in the source is unreachable
(its own FIXME comment says so) and has no counterpart here. -/
def mkUniformSetter (loc : Nat) (type : Nat) (size : Nat) (isArray : Bool) :
    Except JSError Setter :=
  let stage1 : Except JSError (Bool × TASlot × Option GLFun) :=
    if 1 < size ∧ isArray = true then
      if type = GL_FLOAT then
        .ok (false, .ctorTA .f32, some .uniform1fv)
      else if type = GL_INT ∨ type = GL_BOOL ∨ type = GL_SAMPLER_2D ∨
          type = GL_SAMPLER_CUBE then
        .ok (false, .ctorTA .u16, some .uniform1iv)
      else
        .error (.jsError msgUnknownGlsl)
    else
      .ok (true, .noneTA, none)
  match stage1 with
  | .error e => .error e
  | .ok (vector, ta0, f0) =>
    let step2 : Bool × Option GLFun × TASlot :=
      if vector then
        if type = GL_FLOAT then (false, some GLFun.uniform1f, ta0)
        else if type = GL_FLOAT_VEC2 then
          (false, some GLFun.uniform2fv,
            if isArray then TASlot.ctorTA .f32 else TASlot.allocTA .f32 2)
        else if type = GL_FLOAT_VEC3 then
          (false, some GLFun.uniform3fv,
            if isArray then TASlot.ctorTA .f32 else TASlot.allocTA .f32 3)
        else if type = GL_FLOAT_VEC4 then
          (false, some GLFun.uniform4fv,
            if isArray then TASlot.ctorTA .f32 else TASlot.allocTA .f32 4)
        else if type = GL_INT ∨ type = GL_BOOL ∨ type = GL_SAMPLER_2D ∨
            type = GL_SAMPLER_CUBE then
          (false, some GLFun.uniform1i, ta0)
        else if type = GL_INT_VEC2 ∨ type = GL_BOOL_VEC2 then
          (false, some GLFun.uniform2iv,
            if isArray then TASlot.ctorTA .u16 else TASlot.allocTA .u16 2)
        else if type = GL_INT_VEC3 ∨ type = GL_BOOL_VEC3 then
          (false, some GLFun.uniform3iv,
            if isArray then TASlot.ctorTA .u16 else TASlot.allocTA .u16 3)
        else if type = GL_INT_VEC4 ∨ type = GL_BOOL_VEC4 then
          (false, some GLFun.uniform4iv,
            if isArray then TASlot.ctorTA .u16 else TASlot.allocTA .u16 4)
        else if type = GL_FLOAT_MAT2 then
          (true, some GLFun.uniformMatrix2fv, ta0)
        else if type = GL_FLOAT_MAT3 then
          (true, some GLFun.uniformMatrix3fv, ta0)
        else if type = GL_FLOAT_MAT4 then
          (true, some GLFun.uniformMatrix4fv, ta0)
        else (false, f0, ta0)
      else (false, f0, ta0)
    match step2 with
    | (matrix, f1, ta1) =>
      match f1 with
      | none => .error (.typeError msgBindUndefined)
      | some f =>
        if isArray = true ∧ ta1 ≠ TASlot.noneTA then
          .ok ⟨loc, .arraySetter f ta1.kindOf⟩
        else if matrix then
          .ok ⟨loc, .matrixSetter f⟩
        else
          match ta1 with
          | .allocTA k n => .ok ⟨loc, .vectorSetter f k n⟩
          | _ => .ok ⟨loc, .primitiveSetter f⟩

/-! ### Driver calls and setter application -/

inductive GLArg where
  | raw (v : UVal)
  | buffer (k : TypedArrayKind) (data : List Int)
  | matrixBuffer (transpose : Bool) (data : List Int)
deriving DecidableEq, Repr

structure GLCall where
  fn : GLFun
  loc : Nat
  arg : GLArg
deriving DecidableEq, Repr

/-- Calling the setter closure with value `val`, with `scratch` the current
contents of its captured scratch buffer (empty for setters that own none).
Returns the new scratch contents and the driver call performed. -/
def applySetter (s : Setter) (scratch : List Int) (val : UVal) :
    Except JSError (List Int × GLCall) :=
  match s.kind with
  | .arraySetter f k =>
      match taNew k val with
      | .error e => .error e
      | .ok data => .ok (scratch, ⟨f, s.loc, .buffer k data⟩)
  | .matrixSetter f =>
      match val.toF32 with
      | some d => .ok (scratch, ⟨f, s.loc, .matrixBuffer false d⟩)
      | none => .error (.typeError msgNotAFunction)
  | .vectorSetter f k _ =>
      let src := (val.toF32).getD val.arrayLike
      let buf := taSet k scratch src
      .ok (buf, ⟨f, s.loc, .buffer k buf⟩)
  | .primitiveSetter f =>
      .ok (scratch, ⟨f, s.loc, .raw val⟩)

/-- Build a fresh setter and immediately call it once (scratch buffer in
its just-allocated state). -/
def runFreshSetter (loc type size : Nat) (isArray : Bool) (v : UVal) :
    Except JSError (List Int × GLCall) :=
  (mkUniformSetter loc type size isArray).bind fun s =>
    applySetter s s.kind.initScratch v

/-! ### The Program model: constructor, `setUniform`, `setUniforms` -/

/-- One entry of the driver's active-uniform introspection
(`gl.getActiveUniform`): reported name, type tag, array size. -/
structure UniformInfo where
  name : Str
  type : Nat
  size : Nat
deriving DecidableEq, Repr

/-- The driver facts the constructor consults:
`gl.getUniformLocation(glProgram, name)`. -/
structure GLEnv where
  uniformLoc : Str → Nat

/-- `name[name.length - 1] === ']' ? name.substr(0, name.length - 3) : name`
(the constructor's bracket stripping). -/
def stripName (nm : Str) : Str :=
  if nm.getLast? = some ']' then nm.take (nm.length - 3) else nm

/-- JS object property assignment `obj[k] = v`: overwrite an existing key,
else append. -/
def upsert (l : List (Str × α)) (nm : Str) (v : α) : List (Str × α) :=
  match l with
  | [] => [(nm, v)]
  | (k, w) :: t => if k = nm then (nm, v) :: t else (k, w) :: upsert t nm v

/-- JS object property read `obj[k]` (keys are unique by construction). -/
def alookup (l : List (Str × α)) (nm : Str) : Option α :=
  (l.find? (fun p => decide (p.1 = nm))).map (·.2)

/-- The constructor's uniform-registration loop: for each active uniform,
strip a trailing bracket group from the name, build the setter with
`isArray := (info.name !== name)` and the location looked up under the
original reported name, and register it under the stripped name.  A thrown
error propagates out of the constructor. -/
def buildUniforms (env : GLEnv) :
    List UniformInfo → List (Str × Setter) → Except JSError (List (Str × Setter))
  | [], acc => .ok acc
  | u :: rest, acc =>
    let nm := stripName u.name
    let isArr : Bool := decide (u.name ≠ nm)
    match mkUniformSetter (env.uniformLoc u.name) u.type u.size isArr with
    | .error e => .error e
    | .ok s => buildUniforms env rest (upsert acc nm s)

/-- The constructed `Program` object: attribute locations, uniform setters,
and the current contents of each setter's captured scratch buffer. -/
structure ProgramModel where
  attributes : List (Str × Nat)
  uniforms : List (Str × Setter)
  scratch : List (Str × List Int)
deriving Repr

def initScratches (us : List (Str × Setter)) : List (Str × List Int) :=
  us.map (fun p => (p.1, p.2.kind.initScratch))

/-- The `Program` constructor after linking: registers the given attribute
locations and builds the uniform-setter mapping; any error thrown while
building a setter aborts construction with no `Program` produced. -/
def mkProgram (env : GLEnv) (attrs : List (Str × Nat))
    (unis : List UniformInfo) : Except JSError ProgramModel :=
  match buildUniforms env unis [] with
  | .error e => .error e
  | .ok us => .ok ⟨attrs, us, initScratches us⟩

/-- `Program.setUniform(name, value)`: call the setter when the name is
registered, silently skip otherwise; always returns `this` (the program,
whose only mutation is the called setter's scratch buffer). -/
def setUniform (p : ProgramModel) (nm : Str) (v : UVal) :
    Except JSError (ProgramModel × List GLCall) :=
  match alookup p.uniforms nm with
  | none => .ok (p, [])
  | some s =>
    match applySetter s ((alookup p.scratch nm).getD []) v with
    | .error e => .error e
    | .ok (buf, call) =>
      .ok ({ p with scratch := upsert p.scratch nm buf }, [call])

/-- `Program.setUniforms(forms)`: iterate the key/value pairs, skipping
unregistered names; returns `this`. -/
def setUniformsGo (p : ProgramModel) :
    List (Str × UVal) → Except JSError (ProgramModel × List GLCall)
  | [] => .ok (p, [])
  | (nm, v) :: rest =>
    match setUniform p nm v with
    | .error e => .error e
    | .ok (p1, cs) =>
      match setUniformsGo p1 rest with
      | .error e => .error e
      | .ok (p2, cs') => .ok (p2, cs ++ cs')

/-! ### The recursive shader-source loader `recursiveLoad` -/

/-- The loader's driver collaborator: `gl.getExtension` truthiness.  The
source fetcher (`new XHR({url}).sendAsync()`, an asynchronous fetch per
the spec) does not appear: no call site ever awaits the promise it
returns, so the fetched text never enters the loader's dataflow. -/
structure LoaderEnv where
  getExtension : Str → Bool

/-- A JS value flowing into `recursiveLoad`'s `source` parameter: the
external call sites pass a string, but the nested call on line 90 passes
the un-awaited promise returned by `sendAsync` (an opaque object with no
`match` method). -/
inductive JSSource where
  | str (s : Str)
  | promise
deriving DecidableEq, Repr

/-- `getpath`: the prefix of `path` up to and including its last `/`
(empty when there is no slash; the source's `last === '/'` branch compares
a number with a string and is dead). -/
def getpath (p : Str) : Str :=
  (p.reverse.dropWhile (fun c => decide (c ≠ '/'))).reverse

def includeLit : Str := "#include \"".toList

/-- Scan the filename part of an `#include` directive: the shortest run up
to a closing quote.  The regex's `.` does not cross line terminators, so a
newline before the closing quote kills the match at this position. -/
def takeFname : Str → Option (Str × Str)
  | [] => none
  | c :: cs =>
    if c = '"' then some ([], cs)
    else if c = '\n' ∨ c = '\r' then none
    else (takeFname cs).map (fun r => (c :: r.1, r.2))

def parseIncludeAt (s : Str) : Option (Str × Str) :=
  if includeLit.isPrefixOf s then takeFname (s.drop includeLit.length)
  else none

/-- First match of `/#include "(.*?)"/` in the source: the text before the
match, the captured filename, and the text after the closing quote. -/
def findInclude : Str → Option (Str × Str × Str)
  | [] => none
  | c :: cs =>
    match parseIncludeAt (c :: cs) with
    | some (f, rest) => some ([], f, rest)
    | none =>
      match findInclude cs with
      | some (p, f, r) => some (c :: p, f, r)
      | none => none

/-- `source.replace(/#include ".*?"/, rep)`: replace the first match. -/
def replaceInclude (s rep : Str) : Str :=
  match findInclude s with
  | some (p, _, r) => p ++ rep ++ r
  | none => s

/-- The character class `\s` of the rewriting regex (ASCII part). -/
def jsSpace (c : Char) : Bool :=
  c = ' ' ∨ c = '\t' ∨ c = '\n' ∨ c = '\r' ∨ c = '\x0b' ∨ c = '\x0c'

/-- The character class `[A-Za-z_\-0-9]` of the extension-name capture. -/
def extNameChar (c : Char) : Bool :=
  c.isAlpha ∨ c.isDigit ∨ c = '_' ∨ c = '-'

def hasExtLit : Str := "HAS_EXTENSION".toList

/-- Parse `HAS_EXTENSION\s*\(\s*([A-Za-z_\-0-9]+)\s*\)` (everything after
the mandatory leading `\s`), returning the captured name and the rest. -/
def parseHasExt (s : Str) : Option (Str × Str) :=
  if hasExtLit.isPrefixOf s then
    match (s.drop hasExtLit.length).dropWhile jsSpace with
    | '(' :: s2 =>
      let s3 := s2.dropWhile jsSpace
      let nmRest := s3.span extNameChar
      if nmRest.1 = [] then none
      else
        match nmRest.2.dropWhile jsSpace with
        | ')' :: s5 => some (nmRest.1, s5)
        | _ => none
    | _ => none
  else none

/-- `source.replace(/\sHAS_EXTENSION\s*\(\s*([A-Za-z_\-0-9]+)\s*\)/g, ..)`:
every match (leading whitespace included) becomes `' 1 '` when the driver
reports the extension, `' 0 '` otherwise; scanning resumes after the
match.  Fueled: each step consumes at least one input character, so
`s.length` fuel is exact. -/
def rewriteExt (av : Str → Bool) : Nat → Str → Str
  | 0, s => s
  | _ + 1, [] => []
  | fuel + 1, c :: cs =>
    if jsSpace c then
      match parseHasExt cs with
      | some (nm, rest) =>
        (if av nm then " 1 ".toList else " 0 ".toList) ++ rewriteExt av fuel rest
      | none => c :: rewriteExt av fuel cs
    else c :: rewriteExt av fuel cs

def undefinedStr : Str := "undefined".toList

def loadFailMsg (url : Str) : Str :=
  "Load including file ".toList ++ url ++ " failed".toList

/-- Model of `async recursiveLoad(gl, base, source, duplist = {})`.
A non-string `source` (the promise case) dies immediately in
`source.match` with a `TypeError`, which the `async` wrapper turns into a
rejection.  With no `#include` match the function returns `undefined`
(`Option.none`) — it has no return statement on that path.  On a match:
the cycle check consults `duplist`, but its error path calls
`callbackError`, which is defined nowhere, so firing it would raise a
`ReferenceError`; the nested resolution on line 90 receives the
*un-awaited* `sendAsync` promise as its `source` and — being called with
only three arguments — a fresh empty `duplist`, so it always rejects and
the substitution/rewrite block and the tail call (line 97, which does
thread `duplist`, restored by the add/delete pair to its entry value) are
unreachable from any real call site; they are modelled faithfully below
nonetheless.  Every error raised inside the `try` (the awaited rejection
included) is caught and rewrapped as the generic
`Load including file <url> failed` error.  Fueled on the recursion depth;
the fuel-exhaustion error is a model artifact (the reachable recursion is
two frames deep). -/
def recursiveLoad (env : LoaderEnv) :
    Nat → Str → JSSource → List Str → Except JSError (Option Str)
  | 0, _, _, _ => .error (.jsError "out of fuel".toList)
  | fuel + 1, base, source, duplist =>
    match source with
    | .promise => .error (.typeError msgMatchNotFun)
    | .str src =>
      match findInclude src with
      | none => .ok none
      | some (_, fname, _) =>
        let url := getpath base ++ fname
        let body : Except JSError (Option Str) :=
          if url ∈ duplist then
            .error (.referenceError "callbackError is not defined".toList)
          else
            match recursiveLoad env fuel url .promise [] with
            | .error e => .error e
            | .ok replacement =>
              let s1 := replaceInclude src (replacement.getD undefinedStr)
              let s2 := rewriteExt env.getExtension s1.length s1
              recursiveLoad env fuel url (.str s2) duplist
        match body with
        | .ok v => .ok v
        | .error _ => .error (.jsError (loadFailMsg url))

/-! ### Helper lemmas -/

theorem storeAll_f32 (xs : List Int) : storeAll .f32 xs = xs := by
  have h : TypedArrayKind.store .f32 = id := funext fun v => rfl
  rw [storeAll, h, List.map_id]

theorem storeAll_u16 (xs : List Int) : storeAll .u16 xs = xs.map toUint16 := rfl

/-- `buf.set(src)` with a full-length `src` replaces the whole buffer:
nothing of the previous contents survives. -/
theorem taSet_full (k : TypedArrayKind) (buf xs : List Int)
    (h : xs.length = buf.length) : taSet k buf xs = storeAll k xs := by
  unfold taSet
  have hl : (storeAll k xs).length = buf.length := by simp [storeAll, h]
  rw [h, List.drop_length, List.append_nil, ← hl, List.take_length]

theorem applySetter_vector (f : GLFun) (k : TypedArrayKind) (n loc : Nat)
    (buf : List Int) (v : UVal) (hb : buf.length = n)
    (hs : ((v.toF32).getD v.arrayLike).length = n) :
    applySetter ⟨loc, .vectorSetter f k n⟩ buf v =
      .ok (storeAll k ((v.toF32).getD v.arrayLike),
           ⟨f, loc, .buffer k (storeAll k ((v.toF32).getD v.arrayLike))⟩) := by
  have h := taSet_full k buf ((v.toF32).getD v.arrayLike) (by rw [hs, hb])
  simp [applySetter, h]

theorem runFreshSetter_vec (t : Nat) (f : GLFun) (k : TypedArrayKind)
    (n loc : Nat)
    (hmk : mkUniformSetter loc t 1 false = .ok ⟨loc, .vectorSetter f k n⟩)
    (v : UVal) (hs : ((v.toF32).getD v.arrayLike).length = n) :
    runFreshSetter loc t 1 false v =
      .ok (storeAll k ((v.toF32).getD v.arrayLike),
           ⟨f, loc, .buffer k (storeAll k ((v.toF32).getD v.arrayLike))⟩) := by
  simp only [runFreshSetter, hmk, Except.bind]
  exact applySetter_vector f k n loc _ v (by simp [SetterKind.initScratch]) hs

theorem runFresh_fvec2 (loc : Nat) (xs : List Int) (h : xs.length = 2) :
    runFreshSetter loc GL_FLOAT_VEC2 1 false (.flatArr xs) =
      .ok (xs, ⟨.uniform2fv, loc, .buffer .f32 xs⟩) := by
  simpa [storeAll_f32, UVal.toF32, UVal.arrayLike] using
    runFreshSetter_vec GL_FLOAT_VEC2 GLFun.uniform2fv .f32 2 loc rfl
      (.flatArr xs) (by simpa [UVal.toF32, UVal.arrayLike] using h)

theorem runFresh_fvec3 (loc : Nat) (xs : List Int) (h : xs.length = 3) :
    runFreshSetter loc GL_FLOAT_VEC3 1 false (.flatArr xs) =
      .ok (xs, ⟨.uniform3fv, loc, .buffer .f32 xs⟩) := by
  simpa [storeAll_f32, UVal.toF32, UVal.arrayLike] using
    runFreshSetter_vec GL_FLOAT_VEC3 GLFun.uniform3fv .f32 3 loc rfl
      (.flatArr xs) (by simpa [UVal.toF32, UVal.arrayLike] using h)

theorem runFresh_fvec4 (loc : Nat) (xs : List Int) (h : xs.length = 4) :
    runFreshSetter loc GL_FLOAT_VEC4 1 false (.flatArr xs) =
      .ok (xs, ⟨.uniform4fv, loc, .buffer .f32 xs⟩) := by
  simpa [storeAll_f32, UVal.toF32, UVal.arrayLike] using
    runFreshSetter_vec GL_FLOAT_VEC4 GLFun.uniform4fv .f32 4 loc rfl
      (.flatArr xs) (by simpa [UVal.toF32, UVal.arrayLike] using h)

theorem runFresh_ivec (t : Nat) (f : GLFun) (n loc : Nat)
    (hmk : mkUniformSetter loc t 1 false = .ok ⟨loc, .vectorSetter f .u16 n⟩)
    (xs : List Int) (h : xs.length = n) :
    runFreshSetter loc t 1 false (.flatArr xs) =
      .ok (xs.map toUint16, ⟨f, loc, .buffer .u16 (xs.map toUint16)⟩) := by
  simpa [storeAll_u16, UVal.toF32, UVal.arrayLike] using
    runFreshSetter_vec t f .u16 n loc hmk
      (.flatArr xs) (by simpa [UVal.toF32, UVal.arrayLike] using h)

theorem mkSet_floatArr (loc sz : Nat) (h : 1 < sz) :
    mkUniformSetter loc GL_FLOAT sz true =
      .ok ⟨loc, .arraySetter .uniform1fv .f32⟩ := by
  unfold mkUniformSetter; rw [if_pos ⟨h, rfl⟩]; rfl

theorem mkSet_intArr (loc sz : Nat) (h : 1 < sz) (t : Nat)
    (ht : t = GL_INT ∨ t = GL_BOOL ∨ t = GL_SAMPLER_2D ∨ t = GL_SAMPLER_CUBE) :
    mkUniformSetter loc t sz true =
      .ok ⟨loc, .arraySetter .uniform1iv .u16⟩ := by
  rcases ht with h1 | h1 | h1 | h1 <;> subst h1 <;>
    (unfold mkUniformSetter; rw [if_pos ⟨h, rfl⟩]; rfl)

/-! ### Tables of the supported type tags -/

def intScalarTags : List Nat := [GL_INT, GL_BOOL, GL_SAMPLER_2D, GL_SAMPLER_CUBE]

def fvecTable : List (Nat × GLFun × Nat) :=
  [(GL_FLOAT_VEC2, .uniform2fv, 2), (GL_FLOAT_VEC3, .uniform3fv, 3),
   (GL_FLOAT_VEC4, .uniform4fv, 4)]

def ivecTable : List (Nat × GLFun × Nat) :=
  [(GL_INT_VEC2, .uniform2iv, 2), (GL_BOOL_VEC2, .uniform2iv, 2),
   (GL_INT_VEC3, .uniform3iv, 3), (GL_BOOL_VEC3, .uniform3iv, 3),
   (GL_INT_VEC4, .uniform4iv, 4), (GL_BOOL_VEC4, .uniform4iv, 4)]

def matTable : List (Nat × GLFun) :=
  [(GL_FLOAT_MAT2, .uniformMatrix2fv), (GL_FLOAT_MAT3, .uniformMatrix3fv),
   (GL_FLOAT_MAT4, .uniformMatrix4fv)]

/-! ### Claim C1 -/

/-- C1 (counterexample): the claim states that a setter, called with a
correctly shaped value, hands the driver a buffer holding exactly the
components of the supplied value.  The `ivec2` setter called with the
correctly shaped value `[-1, 0]` invokes `uniform2iv` with the `Uint16Array`
contents `[65535, 0]`, which is not the supplied components. -/
theorem C1_counterexample :
    runFreshSetter 7 GL_INT_VEC2 1 false (UVal.flatArr [-1, 0]) =
      .ok ([65535, 0], ⟨GLFun.uniform2iv, 7, GLArg.buffer .u16 [65535, 0]⟩) ∧
    ([65535, 0] : List Int) ≠ [-1, 0] :=
  ⟨rfl, by decide⟩

/-- C1 (amended): for every supported type tag, `getUniformSetter` returns
a setter that invokes exactly the driver call matching the tag, with the
cached location and a buffer holding the components of the supplied value —
exactly for the float paths, and reduced modulo 2^16 (unsigned 16-bit
storage) for the int/bool/sampler paths; scalar tags pass the raw value,
and the 1fv/1iv array variants require scalar tags (handled separately in
C3).  Conjuncts: scalar float; scalar int/bool/sampler; float vec2/3/4;
int/bool vec2/3/4; mat2/3/4; float arrays; int/bool/sampler arrays. -/
theorem C1_amended :
    (∀ loc : Nat, ∀ n : Int, runFreshSetter loc GL_FLOAT 1 false (.num n) =
        .ok ([], ⟨.uniform1f, loc, .raw (.num n)⟩)) ∧
    (∀ t ∈ intScalarTags, ∀ loc : Nat, ∀ n : Int,
        runFreshSetter loc t 1 false (.num n) =
          .ok ([], ⟨.uniform1i, loc, .raw (.num n)⟩)) ∧
    (∀ p ∈ fvecTable, ∀ loc : Nat, ∀ xs : List Int, xs.length = p.2.2 →
        runFreshSetter loc p.1 1 false (.flatArr xs) =
          .ok (xs, ⟨p.2.1, loc, .buffer .f32 xs⟩)) ∧
    (∀ p ∈ ivecTable, ∀ loc : Nat, ∀ xs : List Int, xs.length = p.2.2 →
        runFreshSetter loc p.1 1 false (.flatArr xs) =
          .ok (xs.map toUint16,
               ⟨p.2.1, loc, .buffer .u16 (xs.map toUint16)⟩)) ∧
    (∀ p ∈ matTable, ∀ loc : Nat, ∀ b fl : List Int,
        runFreshSetter loc p.1 1 false (.convArr b fl) =
          .ok ([], ⟨p.2, loc, .matrixBuffer false fl⟩)) ∧
    (∀ loc sz : Nat, ∀ xs : List Int, 1 < sz →
        runFreshSetter loc GL_FLOAT sz true (.flatArr xs) =
          .ok ([], ⟨.uniform1fv, loc, .buffer .f32 xs⟩)) ∧
    (∀ t ∈ intScalarTags, ∀ loc sz : Nat, ∀ xs : List Int, 1 < sz →
        runFreshSetter loc t sz true (.flatArr xs) =
          .ok ([], ⟨.uniform1iv, loc, .buffer .u16 (xs.map toUint16)⟩)) := by
  refine ⟨?_, ?_, ?_, ?_, ?_, ?_, ?_⟩
  · intro loc n; rfl
  · intro t ht loc n; fin_cases ht <;> rfl
  · intro p hp
    fin_cases hp
    · exact runFresh_fvec2
    · exact runFresh_fvec3
    · exact runFresh_fvec4
  · intro p hp
    fin_cases hp
    · exact fun loc xs h => runFresh_ivec GL_INT_VEC2 .uniform2iv 2 loc rfl xs h
    · exact fun loc xs h => runFresh_ivec GL_BOOL_VEC2 .uniform2iv 2 loc rfl xs h
    · exact fun loc xs h => runFresh_ivec GL_INT_VEC3 .uniform3iv 3 loc rfl xs h
    · exact fun loc xs h => runFresh_ivec GL_BOOL_VEC3 .uniform3iv 3 loc rfl xs h
    · exact fun loc xs h => runFresh_ivec GL_INT_VEC4 .uniform4iv 4 loc rfl xs h
    · exact fun loc xs h => runFresh_ivec GL_BOOL_VEC4 .uniform4iv 4 loc rfl xs h
  · intro p hp; fin_cases hp <;> (intro loc b fl; rfl)
  · intro loc sz xs h
    simp only [runFreshSetter, mkSet_floatArr loc sz h, Except.bind]
    simp [applySetter, taNew, SetterKind.initScratch, storeAll_f32]
  · intro t ht loc sz xs h
    have hmk := mkSet_intArr loc sz h t (by
      simp only [intScalarTags, List.mem_cons, List.mem_singleton] at ht
      tauto)
    simp only [runFreshSetter, hmk, Except.bind]
    simp [applySetter, taNew, SetterKind.initScratch, storeAll_u16]

/-- C1 (witness): instances of the amended claim at concrete inputs. -/
theorem C1_amended_w :
    runFreshSetter 1 GL_FLOAT_VEC2 1 false (.flatArr [5, 6]) =
      .ok ([5, 6], ⟨.uniform2fv, 1, .buffer .f32 [5, 6]⟩) ∧
    runFreshSetter 2 GL_INT_VEC3 1 false (.flatArr [7, 0, 9]) =
      .ok ([7, 0, 9], ⟨.uniform3iv, 2, .buffer .u16 [7, 0, 9]⟩) ∧
    runFreshSetter 3 GL_FLOAT 4 true (.flatArr [1, 2, 3, 4]) =
      .ok ([], ⟨.uniform1fv, 3, .buffer .f32 [1, 2, 3, 4]⟩) ∧
    runFreshSetter 4 GL_SAMPLER_2D 2 true (.flatArr [0, 1]) =
      .ok ([], ⟨.uniform1iv, 4, .buffer .u16 [0, 1]⟩) ∧
    runFreshSetter 5 GL_BOOL 1 false (.num 1) =
      .ok ([], ⟨.uniform1i, 5, .raw (.num 1)⟩) := by
  refine ⟨?_, ?_, ?_, ?_, ?_⟩
  · exact C1_amended.2.2.1 (GL_FLOAT_VEC2, .uniform2fv, 2)
      (by decide) 1 [5, 6] (by decide)
  · have := C1_amended.2.2.2.1 (GL_INT_VEC3, .uniform3iv, 3)
      (by decide) 2 [7, 0, 9] (by decide)
    simpa using this
  · exact C1_amended.2.2.2.2.2.1 3 4 [1, 2, 3, 4] (by decide)
  · have := C1_amended.2.2.2.2.2.2 GL_SAMPLER_2D (by decide) 4 2 [0, 1]
      (by decide)
    simpa using this
  · exact C1_amended.2.1 GL_BOOL (by decide) 5 1

/-! ### Claim C2 -/

/-- C2 (code behaviour at the failing input): for a non-array uniform whose
type tag `9999` matches no case, the second switch falls through with
`glFunction` still `undefined`, so `glFunction.bind(gl)` raises a
`TypeError` — not the intended `Unknown GLSL type` error, whose `throw`
at the end of `getUniformSetter` is unreachable (the source's own FIXME
says so).  Construction still aborts with no mapping returned.  On the
array path (size > 1 with a bracketed name) an unknown tag does raise the
`Uniform: Unknown GLSL type` error. -/
theorem C2_code_behavior :
    mkUniformSetter 0 9999 1 false = .error (.typeError msgBindUndefined) ∧
    mkProgram ⟨fun _ => 0⟩ [] [⟨"u".toList, 9999, 1⟩] =
      .error (.typeError msgBindUndefined) ∧
    mkUniformSetter 0 9999 2 true = .error (.jsError msgUnknownGlsl) ∧
    mkProgram ⟨fun _ => 0⟩ [] [⟨"arr[0]".toList, 9999, 2⟩] =
      .error (.jsError msgUnknownGlsl) :=
  ⟨rfl, rfl, rfl, rfl⟩

/-! ### Claim C3 -/

def arrSuffix : Str := "[0]".toList

theorem stripName_arrName (nm : Str) : stripName (nm ++ arrSuffix) = nm := by
  have h1 : (nm ++ arrSuffix).getLast? = some ']' := by
    rw [show nm ++ arrSuffix = (nm ++ ['[', '0']) ++ ([']'] : Str) by
      simp [arrSuffix]]
    exact List.getLast?_concat _
  unfold stripName
  rw [if_pos h1]
  have h2 : (nm ++ arrSuffix).length - 3 = nm.length := by simp [arrSuffix]
  rw [h2, show arrSuffix = "[0]".toList from rfl, List.take_left]

theorem arrName_ne (nm : Str) : nm ++ arrSuffix ≠ nm := by
  intro h
  have := congrArg List.length h
  simp [arrSuffix] at this

def vecMatTags : List Nat :=
  [GL_FLOAT_VEC2, GL_FLOAT_VEC3, GL_FLOAT_VEC4,
   GL_INT_VEC2, GL_INT_VEC3, GL_INT_VEC4,
   GL_BOOL_VEC2, GL_BOOL_VEC3, GL_BOOL_VEC4,
   GL_FLOAT_MAT2, GL_FLOAT_MAT3, GL_FLOAT_MAT4]

/-- On the `size > 1 && isArray` path, every vector and matrix tag falls
into the first switch's default case and throws. -/
theorem mkSet_vecMatArr (loc sz : Nat) (h : 1 < sz) (t : Nat)
    (ht : t ∈ vecMatTags) :
    mkUniformSetter loc t sz true = .error (.jsError msgUnknownGlsl) := by
  fin_cases ht <;> (unfold mkUniformSetter; rw [if_pos ⟨h, rfl⟩]; rfl)

/-- C3 (counterexample): the claim states that every active uniform whose
name carries a trailing bracket suffix and whose size exceeds 1 gets a
setter registered under the stripped base name using the array driver
variant.  A `vec2` array uniform (`"ps[0]"`, type `FLOAT_VEC2`, size 2)
instead aborts construction with `Uniform: Unknown GLSL type`: no setter
is registered at all. -/
theorem C3_counterexample :
    mkProgram ⟨fun _ => 0⟩ [] [⟨"ps[0]".toList, GL_FLOAT_VEC2, 2⟩] =
      .error (.jsError msgUnknownGlsl) := rfl

/-- C3 (amended): for a driver-reported name with a trailing `[0]` suffix
and size > 1, a *scalar* float or int/bool/sampler uniform is registered
under the base name with the suffix stripped and uses the array driver
variant (`uniform1fv`/`uniform1iv`); a vector or matrix tag on that path
instead aborts construction with `Uniform: Unknown GLSL type`.  A uniform
reported without such a suffix is registered under the reported name
unchanged, classified with `isArray = false` (the scalar/vector/matrix
driver variants). -/
theorem C3_amended :
    (∀ env : GLEnv, ∀ nm : Str, ∀ sz : Nat, 1 < sz →
        mkProgram env [] [⟨nm ++ arrSuffix, GL_FLOAT, sz⟩] =
          .ok ⟨[], [(nm, ⟨env.uniformLoc (nm ++ arrSuffix),
                          .arraySetter .uniform1fv .f32⟩)], [(nm, [])]⟩) ∧
    (∀ t ∈ intScalarTags, ∀ env : GLEnv, ∀ nm : Str, ∀ sz : Nat, 1 < sz →
        mkProgram env [] [⟨nm ++ arrSuffix, t, sz⟩] =
          .ok ⟨[], [(nm, ⟨env.uniformLoc (nm ++ arrSuffix),
                          .arraySetter .uniform1iv .u16⟩)], [(nm, [])]⟩) ∧
    (∀ t ∈ vecMatTags, ∀ env : GLEnv, ∀ nm : Str, ∀ sz : Nat, 1 < sz →
        mkProgram env [] [⟨nm ++ arrSuffix, t, sz⟩] =
          .error (.jsError msgUnknownGlsl)) ∧
    (∀ env : GLEnv, ∀ nm : Str, ∀ t sz : Nat, nm.getLast? ≠ some ']' →
        mkProgram env [] [⟨nm, t, sz⟩] =
          (match mkUniformSetter (env.uniformLoc nm) t sz false with
           | .error e => .error e
           | .ok s => .ok ⟨[], [(nm, s)], [(nm, s.kind.initScratch)]⟩)) := by
  refine ⟨?_, ?_, ?_, ?_⟩
  · intro env nm sz h
    simp only [mkProgram, buildUniforms, stripName_arrName,
      decide_eq_true (arrName_ne nm), mkSet_floatArr _ sz h]
    simp [upsert, initScratches, SetterKind.initScratch]
  · intro t ht env nm sz h
    have hmk := mkSet_intArr (env.uniformLoc (nm ++ arrSuffix)) sz h t (by
      simp only [intScalarTags, List.mem_cons, List.mem_singleton] at ht
      tauto)
    simp only [mkProgram, buildUniforms, stripName_arrName,
      decide_eq_true (arrName_ne nm), hmk]
    simp [upsert, initScratches, SetterKind.initScratch]
  · intro t ht env nm sz h
    have hmk := mkSet_vecMatArr (env.uniformLoc (nm ++ arrSuffix)) sz h t ht
    simp only [mkProgram, buildUniforms, stripName_arrName,
      decide_eq_true (arrName_ne nm), hmk]
  · intro env nm t sz h
    have hstrip : stripName nm = nm := by unfold stripName; rw [if_neg h]
    simp only [mkProgram, buildUniforms, hstrip, ne_eq, not_true_eq_false,
      decide_not]
    cases hmk : mkUniformSetter (env.uniformLoc nm) t sz false with
    | error e => simp [hmk]
    | ok s => simp [hmk, buildUniforms, upsert, initScratches]

def envW : GLEnv := ⟨fun _ => 5⟩

/-- C3 (witness): instances of the amended claim at concrete inputs:
`"colors[0]"` of scalar float type and size 4 registers an array setter
under `"colors"`; `"flags[0]"` of bool type registers `uniform1iv` under
`"flags"`; `"ps[0]"` of `vec3` type aborts; `"color"` without a suffix
registers a `vec4` vector setter under `"color"`. -/
theorem C3_amended_w :
    mkProgram envW [] [⟨"colors".toList ++ arrSuffix, GL_FLOAT, 4⟩] =
      .ok ⟨[], [("colors".toList, ⟨5, .arraySetter .uniform1fv .f32⟩)],
           [("colors".toList, [])]⟩ ∧
    mkProgram envW [] [⟨"flags".toList ++ arrSuffix, GL_BOOL, 2⟩] =
      .ok ⟨[], [("flags".toList, ⟨5, .arraySetter .uniform1iv .u16⟩)],
           [("flags".toList, [])]⟩ ∧
    mkProgram envW [] [⟨"ps".toList ++ arrSuffix, GL_FLOAT_VEC3, 2⟩] =
      .error (.jsError msgUnknownGlsl) ∧
    mkProgram envW [] [⟨"color".toList, GL_FLOAT_VEC4, 1⟩] =
      .ok ⟨[], [("color".toList, ⟨5, .vectorSetter .uniform4fv .f32 4⟩)],
           [("color".toList, [0, 0, 0, 0])]⟩ := by
  refine ⟨?_, ?_, ?_, ?_⟩
  · exact C3_amended.1 envW ("colors".toList) 4 (by decide)
  · exact C3_amended.2.1 GL_BOOL (by decide) envW ("flags".toList) 2 (by decide)
  · exact C3_amended.2.2.1 GL_FLOAT_VEC3 (by decide) envW ("ps".toList) 2
      (by decide)
  · have := C3_amended.2.2.2 envW ("color".toList) GL_FLOAT_VEC4 1 (by decide)
    rw [this]
    rfl

/-! ### Claims C4, C5, C8: the recursive loader -/

/-- The claimed cycle's first file: `main.glsl` includes `a.glsl`. -/
def mainSrc : Str := "#include \"a.glsl\"".toList

/-- The claimed cycle's second file: `a.glsl` includes `main.glsl` back.
Its content never enters the dataflow: the response promise of its fetch
is passed to the nested call without being awaited. -/
def aSrc : Str := "#include \"main.glsl\"".toList

/-- A driver reporting every extension unavailable. -/
def noExtEnv : LoaderEnv := ⟨fun _ => false⟩

/-- C4 (code behaviour at the failing input): on the `main.glsl`/`a.glsl`
inclusion cycle, `recursiveLoad` terminates and fails — but with the
generic `Load including file a.glsl failed` error produced by the `catch`
wrapper, not a `RecursiveIncludeError`, and not by rejecting re-entry:
the nested resolution (source line 90) passes no `duplist`, so every
nested call starts with a fresh empty set and the cycle check never fires
from any real call site (were it to fire, it would call the undefined
`callbackError` and raise a `ReferenceError`).  What terminates the chain
is that line 90 also passes the un-awaited `sendAsync` promise as the
nested `source`, whose `source.match` raises a `TypeError` that the
`catch` wraps.  The first conjunct proves this failure unconditional:
*every* source whose first matched include resolves to some url — cyclic
or not, whatever the duplist — yields the wrapped load error naming that
url.  The second conjunct is the claim's concrete cycle input. -/
theorem C4_code_behavior :
    (∀ env : LoaderEnv, ∀ fuel : Nat, ∀ base src : Str, ∀ dup : List Str,
        ∀ pre fname post : Str, findInclude src = some (pre, fname, post) →
        recursiveLoad env (fuel + 2) base (.str src) dup =
          .error (.jsError (loadFailMsg (getpath base ++ fname)))) ∧
    recursiveLoad noExtEnv 6 ("main.glsl".toList) (.str mainSrc) [] =
      .error (.jsError (loadFailMsg ("a.glsl".toList))) := by
  refine ⟨?_, rfl⟩
  intro env fuel base src dup pre fname post h
  simp only [recursiveLoad, h]
  by_cases hd : getpath base ++ fname ∈ dup
  · rw [if_pos hd]
  · rw [if_neg hd]

/-- C4 (witness): the general conjunct applied to the concrete cycle
file: with fuel 7 = 5 + 2 and an empty chain, `main.glsl` fails with the
wrapped load error for `a.glsl`. -/
theorem C4_code_behavior_w :
    recursiveLoad noExtEnv 7 ("main.glsl".toList) (.str mainSrc) [] =
      .error (.jsError (loadFailMsg ("a.glsl".toList))) := by
  have := C4_code_behavior.1 noExtEnv 5 ("main.glsl".toList) mainSrc []
    [] ("a.glsl".toList) [] (by rfl)
  simpa using this

/-- C5 (code behaviour at the failing input): no rewritten source is ever
emitted.  On the claim's input — a source containing an include and a
`HAS_EXTENSION(FOO)` invocation with `FOO` unavailable — `recursiveLoad`
throws the wrapped `Load including file a.glsl failed` error: the nested
call receives the un-awaited `sendAsync` promise and dies in
`source.match`, so the substitution/rewrite block is never reached.  An
include-free source containing the macro returns `undefined` (`none`),
not rewritten text (see C8).  The last two conjuncts show what the
in-source rewrite pass would do — map a `\s`-preceded invocation to
`' 0 '` / `' 1 '` — though it is unreachable from `recursiveLoad`'s real
call sites. -/
theorem C5_code_behavior :
    recursiveLoad noExtEnv 6 ("main.glsl".toList)
      (.str (("#include \"a.glsl\"".toList) ++
        ('\n' :: "x HAS_EXTENSION(FOO) y".toList))) [] =
      .error (.jsError (loadFailMsg ("a.glsl".toList))) ∧
    recursiveLoad noExtEnv 6 ("main.glsl".toList)
      (.str ("x HAS_EXTENSION(FOO) y".toList)) [] = .ok none ∧
    rewriteExt (fun _ => false) 40 ("x HAS_EXTENSION(FOO) y".toList) =
      "x 0  y".toList ∧
    rewriteExt (fun _ => true) 40 ("x HAS_EXTENSION(FOO) y".toList) =
      "x 1  y".toList :=
  ⟨rfl, rfl, rfl, rfl⟩

/-- C8: an input source with no `#include` match takes the branch with no
return statement: `recursiveLoad` returns `undefined` (`none`), never the
(possibly macro-rewritten) source text. -/
theorem C8_claim (env : LoaderEnv) (fuel : Nat) (base source : Str)
    (dup : List Str) (h : findInclude source = none) :
    recursiveLoad env (fuel + 1) base (.str source) dup = .ok none := by
  simp only [recursiveLoad, h]

def trivLoadEnv : LoaderEnv := ⟨fun _ => false⟩

/-- C8 (witness): a concrete include-free source that does contain a
`HAS_EXTENSION` invocation still yields `undefined`, not rewritten text. -/
theorem C8_claim_w :
    recursiveLoad trivLoadEnv 1 [] (.str ("x HAS_EXTENSION(FOO) y".toList))
      [] = .ok none :=
  C8_claim trivLoadEnv 0 [] ("x HAS_EXTENSION(FOO) y".toList) [] (by rfl)

/-! ### Claim C6 -/

/-- C6 (counterexample): the claim states that *every* non-scalar uniform's
setter owns a scratch typed buffer sized to the uniform's component count.
The `mat4` setter (a non-scalar uniform, component count 16) owns no
scratch buffer at all: it passes `val.toFloat32Array()` straight to the
driver call. -/
theorem C6_counterexample :
    mkUniformSetter 0 GL_FLOAT_MAT4 1 false =
      .ok ⟨0, .matrixSetter .uniformMatrix4fv⟩ ∧
    (SetterKind.matrixSetter .uniformMatrix4fv).scratchSpec = none :=
  ⟨rfl, rfl⟩

/-- C6 (amended): only the non-array *vector* setters own a scratch typed
buffer; it is sized exactly to the component count (2/3/4), allocated once
at setter construction (zero-initialised), and a call with a full-length
value overwrites it completely — the resulting buffer and driver payload
do not depend on the previous contents, so nothing leaks between calls.
Matrix setters own no scratch buffer (the converted value goes straight to
the driver), and array setters construct a fresh typed array from the
argument on every call, leaving any scratch state untouched: an array-like
argument contributes its converted elements, while a raw number hits the
typed-array length-constructor overload — a zero-filled buffer of that
length, or a `RangeError` when negative. -/
theorem C6_amended :
    (∀ p ∈ fvecTable, ∀ loc : Nat,
        mkUniformSetter loc p.1 1 false =
          .ok ⟨loc, .vectorSetter p.2.1 .f32 p.2.2⟩ ∧
        (SetterKind.vectorSetter p.2.1 .f32 p.2.2).scratchSpec =
          some (.f32, p.2.2) ∧
        (SetterKind.vectorSetter p.2.1 .f32 p.2.2).initScratch =
          List.replicate p.2.2 0) ∧
    (∀ p ∈ ivecTable, ∀ loc : Nat,
        mkUniformSetter loc p.1 1 false =
          .ok ⟨loc, .vectorSetter p.2.1 .u16 p.2.2⟩ ∧
        (SetterKind.vectorSetter p.2.1 .u16 p.2.2).scratchSpec =
          some (.u16, p.2.2) ∧
        (SetterKind.vectorSetter p.2.1 .u16 p.2.2).initScratch =
          List.replicate p.2.2 0) ∧
    (∀ f : GLFun, ∀ k : TypedArrayKind, ∀ n loc : Nat, ∀ buf : List Int,
        ∀ v : UVal, buf.length = n → ((v.toF32).getD v.arrayLike).length = n →
        applySetter ⟨loc, .vectorSetter f k n⟩ buf v =
          .ok (storeAll k ((v.toF32).getD v.arrayLike),
               ⟨f, loc, .buffer k (storeAll k ((v.toF32).getD v.arrayLike))⟩)) ∧
    (∀ p ∈ matTable, ∀ loc : Nat,
        mkUniformSetter loc p.1 1 false = .ok ⟨loc, .matrixSetter p.2⟩ ∧
        (SetterKind.matrixSetter p.2).scratchSpec = none) ∧
    (∀ f : GLFun, ∀ k : TypedArrayKind, ∀ loc : Nat, ∀ buf xs : List Int,
        applySetter ⟨loc, .arraySetter f k⟩ buf (.flatArr xs) =
          .ok (buf, ⟨f, loc, .buffer k (storeAll k xs)⟩)) ∧
    (∀ f : GLFun, ∀ k : TypedArrayKind, ∀ loc : Nat, ∀ buf b fl : List Int,
        applySetter ⟨loc, .arraySetter f k⟩ buf (.convArr b fl) =
          .ok (buf, ⟨f, loc, .buffer k (storeAll k b)⟩)) ∧
    (∀ f : GLFun, ∀ k : TypedArrayKind, ∀ loc : Nat, ∀ buf : List Int,
        ∀ n : Int, 0 ≤ n →
        applySetter ⟨loc, .arraySetter f k⟩ buf (.num n) =
          .ok (buf, ⟨f, loc, .buffer k (List.replicate n.toNat 0)⟩)) ∧
    (∀ f : GLFun, ∀ k : TypedArrayKind, ∀ loc : Nat, ∀ buf : List Int,
        ∀ n : Int, n < 0 →
        applySetter ⟨loc, .arraySetter f k⟩ buf (.num n) =
          .error (.rangeError msgInvalidLen)) := by
  refine ⟨?_, ?_, ?_, ?_, ?_, ?_, ?_, ?_⟩
  · intro p hp; fin_cases hp <;> exact fun loc => ⟨rfl, rfl, rfl⟩
  · intro p hp; fin_cases hp <;> exact fun loc => ⟨rfl, rfl, rfl⟩
  · intro f k n loc buf v hb hs; exact applySetter_vector f k n loc buf v hb hs
  · intro p hp; fin_cases hp <;> exact fun loc => ⟨rfl, rfl⟩
  · intro f k loc buf xs; rfl
  · intro f k loc buf b fl; rfl
  · intro f k loc buf n hn
    simp only [applySetter, taNew]
    rw [if_neg (not_lt.mpr hn)]
  · intro f k loc buf n hn
    simp only [applySetter, taNew]
    rw [if_pos hn]

/-- C6 (witness): two calls to the same `vec2` setter with different
full-length values: starting from a scratch buffer still holding the first
call's values `[9, 9]`, the second call with `[1, 2]` produces exactly
`[1, 2]` — nothing of the first call survives.  Also the number-argument
overloads of the array setter's fresh typed array: length 3 zero-fills,
length -1 raises a `RangeError`. -/
theorem C6_amended_w :
    applySetter ⟨0, .vectorSetter .uniform2fv .f32 2⟩ [9, 9] (.flatArr [1, 2]) =
      .ok ([1, 2], ⟨.uniform2fv, 0, .buffer .f32 [1, 2]⟩) ∧
    mkUniformSetter 3 GL_FLOAT_VEC2 1 false =
      .ok ⟨3, .vectorSetter .uniform2fv .f32 2⟩ ∧
    applySetter ⟨4, .arraySetter .uniform1iv .u16⟩ [] (.num 3) =
      .ok ([], ⟨.uniform1iv, 4, .buffer .u16 [0, 0, 0]⟩) ∧
    applySetter ⟨4, .arraySetter .uniform1iv .u16⟩ [] (.num (-1)) =
      .error (.rangeError msgInvalidLen) := by
  refine ⟨?_, ?_, ?_, ?_⟩
  · have := C6_amended.2.2.1 .uniform2fv .f32 2 0 [9, 9] (.flatArr [1, 2])
      (by decide) (by decide)
    simpa [storeAll_f32, UVal.toF32, UVal.arrayLike] using this
  · exact (C6_amended.1 (GL_FLOAT_VEC2, .uniform2fv, 2) (by decide) 3).1
  · have := C6_amended.2.2.2.2.2.2.1 .uniform1iv .u16 4 [] 3 (by decide)
    simpa using this
  · exact C6_amended.2.2.2.2.2.2.2 .uniform1iv .u16 4 [] (-1) (by decide)

/-! ### Claim C7 -/

/-- C7 (counterexample): the claim states that a matrix setter obtains the
flat input via `toFloat32Array` *if that capability is present, otherwise
treats the value as already flat*.  The matrix setter calls
`val.toFloat32Array()` unconditionally: an already-flat value without the
capability raises a `TypeError` instead of being uploaded. -/
theorem C7_counterexample :
    mkUniformSetter 0 GL_FLOAT_MAT2 1 false =
      .ok ⟨0, .matrixSetter .uniformMatrix2fv⟩ ∧
    applySetter ⟨0, .matrixSetter .uniformMatrix2fv⟩ []
      (.flatArr [1, 2, 3, 4]) = .error (.typeError msgNotAFunction) :=
  ⟨rfl, rfl⟩

/-- C7 (amended): matrix setters pass transposition flag `false` to the
driver call and obtain the flat column-major input by *always* invoking
the value's `toFloat32Array`; a value lacking that capability raises a
`TypeError` (it is not treated as already flat).  The conditional
behaviour the claim describes — convert when present, else use the value
as already flat — belongs to the non-array vector setters. -/
theorem C7_amended :
    (∀ p ∈ matTable, ∀ loc : Nat,
        mkUniformSetter loc p.1 1 false = .ok ⟨loc, .matrixSetter p.2⟩) ∧
    (∀ f : GLFun, ∀ loc : Nat, ∀ b fl : List Int,
        applySetter ⟨loc, .matrixSetter f⟩ [] (.convArr b fl) =
          .ok ([], ⟨f, loc, .matrixBuffer false fl⟩)) ∧
    (∀ f : GLFun, ∀ loc : Nat, ∀ xs : List Int,
        applySetter ⟨loc, .matrixSetter f⟩ [] (.flatArr xs) =
          .error (.typeError msgNotAFunction)) ∧
    (∀ f : GLFun, ∀ k : TypedArrayKind, ∀ n loc : Nat,
        ∀ buf b fl : List Int, buf.length = n → fl.length = n →
        applySetter ⟨loc, .vectorSetter f k n⟩ buf (.convArr b fl) =
          .ok (storeAll k fl, ⟨f, loc, .buffer k (storeAll k fl)⟩)) ∧
    (∀ f : GLFun, ∀ k : TypedArrayKind, ∀ n loc : Nat,
        ∀ buf xs : List Int, buf.length = n → xs.length = n →
        applySetter ⟨loc, .vectorSetter f k n⟩ buf (.flatArr xs) =
          .ok (storeAll k xs, ⟨f, loc, .buffer k (storeAll k xs)⟩)) := by
  refine ⟨?_, ?_, ?_, ?_, ?_⟩
  · intro p hp; fin_cases hp <;> exact fun loc => rfl
  · intro f loc b fl; rfl
  · intro f loc xs; rfl
  · intro f k n loc buf b fl hb hf
    exact applySetter_vector f k n loc buf (.convArr b fl) hb
      (by simpa [UVal.toF32] using hf)
  · intro f k n loc buf xs hb hx
    exact applySetter_vector f k n loc buf (.flatArr xs) hb
      (by simpa [UVal.toF32, UVal.arrayLike] using hx)

/-- C7 (witness): the amended claim at concrete inputs: a `mat2` value with
the conversion capability is uploaded with transpose `false`; a `vec3`
setter uses the conversion when present and the raw flat value when not. -/
theorem C7_amended_w :
    applySetter ⟨1, .matrixSetter .uniformMatrix2fv⟩ []
      (.convArr [] [1, 0, 0, 1]) =
      .ok ([], ⟨.uniformMatrix2fv, 1, .matrixBuffer false [1, 0, 0, 1]⟩) ∧
    applySetter ⟨2, .vectorSetter .uniform3fv .f32 3⟩ [0, 0, 0]
      (.convArr [7, 7, 7] [4, 5, 6]) =
      .ok ([4, 5, 6], ⟨.uniform3fv, 2, .buffer .f32 [4, 5, 6]⟩) ∧
    applySetter ⟨2, .vectorSetter .uniform3fv .f32 3⟩ [0, 0, 0]
      (.flatArr [4, 5, 6]) =
      .ok ([4, 5, 6], ⟨.uniform3fv, 2, .buffer .f32 [4, 5, 6]⟩) := by
  refine ⟨?_, ?_, ?_⟩
  · exact C7_amended.2.1 .uniformMatrix2fv 1 [] [1, 0, 0, 1]
  · have := C7_amended.2.2.2.1 .uniform3fv .f32 3 2 [0, 0, 0] [7, 7, 7]
      [4, 5, 6] (by decide) (by decide)
    simpa [storeAll_f32] using this
  · have := C7_amended.2.2.2.2 .uniform3fv .f32 3 2 [0, 0, 0] [4, 5, 6]
      (by decide) (by decide)
    simpa [storeAll_f32] using this

/-! ### Claim C9 -/

theorem setUniform_absent (p : ProgramModel) (nm : Str) (v : UVal)
    (h : alookup p.uniforms nm = none) : setUniform p nm v = .ok (p, []) := by
  simp only [setUniform, h]

theorem setUniformsGo_absent (p : ProgramModel) (forms : List (Str × UVal))
    (h : ∀ x ∈ forms, alookup p.uniforms x.1 = none) :
    setUniformsGo p forms = .ok (p, []) := by
  induction forms with
  | nil => rfl
  | cons hd tl ih =>
    obtain ⟨nm, v⟩ := hd
    have h1 : alookup p.uniforms nm = none := h (nm, v) (by simp)
    simp only [setUniformsGo, setUniform_absent p nm v h1,
      ih (fun x hx => h x (by simp [hx]))]
    rfl

theorem setUniform_preserves (p : ProgramModel) (nm : Str) (v : UVal)
    (p' : ProgramModel) (cs : List GLCall)
    (h : setUniform p nm v = .ok (p', cs)) :
    p'.attributes = p.attributes ∧ p'.uniforms = p.uniforms := by
  unfold setUniform at h
  split at h
  · simp only [Except.ok.injEq, Prod.mk.injEq] at h
    rw [← h.1]
    exact ⟨rfl, rfl⟩
  · split at h
    · cases h
    · simp only [Except.ok.injEq, Prod.mk.injEq] at h
      rw [← h.1]
      exact ⟨rfl, rfl⟩

/-- C9: a name absent from the uniforms mapping is silently skipped by
`setUniform` — no driver call, no error — and by `setUniforms` for each
absent key; both return the program itself, and no successful `setUniform`
ever changes the attributes or uniforms mappings (only the called setter's
scratch buffer). -/
theorem C9_claim :
    (∀ p : ProgramModel, ∀ nm : Str, ∀ v : UVal,
        alookup p.uniforms nm = none → setUniform p nm v = .ok (p, [])) ∧
    (∀ p : ProgramModel, ∀ forms : List (Str × UVal),
        (∀ x ∈ forms, alookup p.uniforms x.1 = none) →
        setUniformsGo p forms = .ok (p, [])) ∧
    (∀ p : ProgramModel, ∀ nm : Str, ∀ v : UVal, ∀ p' : ProgramModel,
        ∀ cs : List GLCall, setUniform p nm v = .ok (p', cs) →
        p'.attributes = p.attributes ∧ p'.uniforms = p.uniforms) :=
  ⟨setUniform_absent, setUniformsGo_absent, setUniform_preserves⟩

/-- A program with one attribute and one registered uniform, for the
witness. -/
def progW : ProgramModel :=
  ⟨[("a".toList, 1)], [("u".toList, ⟨0, .primitiveSetter .uniform1f⟩)],
   [("u".toList, [])]⟩

/-- C9 (witness): unknown names are skipped with the program returned
unchanged, both for a single set and for a batch. -/
theorem C9_claim_w :
    setUniform progW ("nope".toList) (.num 3) = .ok (progW, []) ∧
    setUniformsGo progW [("x".toList, .num 1), ("y".toList, .num 2)] =
      .ok (progW, []) :=
  ⟨C9_claim.1 progW ("nope".toList) (.num 3) (by rfl),
   C9_claim.2.1 progW [("x".toList, .num 1), ("y".toList, .num 2)]
     (by decide)⟩

/-! ### Claim C10 -/

/-- C10: every int/bool vector uniform and every int/bool/sampler array
uniform stages its values in a `Uint16Array`, so each component reaches
the driver reduced modulo 2^16 into `[0, 65536)` — negative components and
components at or above 65536 are not passed through faithfully. -/
theorem C10_claim :
    (∀ p ∈ ivecTable, ∀ loc : Nat,
        mkUniformSetter loc p.1 1 false =
          .ok ⟨loc, .vectorSetter p.2.1 .u16 p.2.2⟩) ∧
    (∀ p ∈ ivecTable, ∀ loc : Nat, ∀ xs : List Int, xs.length = p.2.2 →
        runFreshSetter loc p.1 1 false (.flatArr xs) =
          .ok (xs.map toUint16,
               ⟨p.2.1, loc, .buffer .u16 (xs.map toUint16)⟩)) ∧
    (∀ t ∈ intScalarTags, ∀ loc sz : Nat, ∀ xs : List Int, 1 < sz →
        runFreshSetter loc t sz true (.flatArr xs) =
          .ok ([], ⟨.uniform1iv, loc, .buffer .u16 (xs.map toUint16)⟩)) ∧
    toUint16 (-1) = 65535 ∧ toUint16 65536 = 0 ∧
    toUint16 (-1) ≠ -1 ∧ toUint16 70000 ≠ 70000 := by
  refine ⟨?_, ?_, ?_, by decide, by decide, by decide, by decide⟩
  · intro p hp; fin_cases hp <;> exact fun loc => rfl
  · intro p hp
    fin_cases hp
    · exact fun loc xs h => runFresh_ivec GL_INT_VEC2 .uniform2iv 2 loc rfl xs h
    · exact fun loc xs h => runFresh_ivec GL_BOOL_VEC2 .uniform2iv 2 loc rfl xs h
    · exact fun loc xs h => runFresh_ivec GL_INT_VEC3 .uniform3iv 3 loc rfl xs h
    · exact fun loc xs h => runFresh_ivec GL_BOOL_VEC3 .uniform3iv 3 loc rfl xs h
    · exact fun loc xs h => runFresh_ivec GL_INT_VEC4 .uniform4iv 4 loc rfl xs h
    · exact fun loc xs h => runFresh_ivec GL_BOOL_VEC4 .uniform4iv 4 loc rfl xs h
  · intro t ht loc sz xs h
    have hmk := mkSet_intArr loc sz h t (by
      simp only [intScalarTags, List.mem_cons, List.mem_singleton] at ht
      tauto)
    simp only [runFreshSetter, hmk, Except.bind]
    simp [applySetter, taNew, SetterKind.initScratch, storeAll_u16]

/-- C10 (witness): an `ivec2` setter given `[-1, 70000]` uploads
`[65535, 4464]`, and a sampler array setter given `[-2, 2]` uploads
`[65534, 2]`. -/
theorem C10_claim_w :
    runFreshSetter 0 GL_INT_VEC2 1 false (.flatArr [-1, 70000]) =
      .ok ([65535, 4464], ⟨.uniform2iv, 0, .buffer .u16 [65535, 4464]⟩) ∧
    runFreshSetter 1 GL_SAMPLER_CUBE 2 true (.flatArr [-2, 2]) =
      .ok ([], ⟨.uniform1iv, 1, .buffer .u16 [65534, 2]⟩) := by
  constructor
  · have := C10_claim.2.1 (GL_INT_VEC2, .uniform2iv, 2) (by decide) 0
      [-1, 70000] (by decide)
    simpa using this
  · have := C10_claim.2.2.1 GL_SAMPLER_CUBE (by decide) 1 2 [-2, 2]
      (by decide)
    simpa using this

end Philo
